import Mathlib

/-!
Shallow embedding of `binrw_derive/src/parser/field_level_attrs.rs`: the
field-level attribute resolution and validation engine of the binrw derive
macro front-end.  Pure data types stand in for the `syn`/`proc_macro2`
values; opaque expression fragments (`TokenStream`) are modelled as strings,
source spans as triples of file/lo/hi positions.  Types imported from
`super::types` and the directive-folding machinery generated by the
`attr_struct!` macro are not part of the given source file; they are
modelled from the specification (each such definition says so in its doc
comment).  Everything taken directly from `field_level_attrs.rs` mirrors
that file's logic clause by clause.
-/

namespace Binrw

/-- Modelled from the spec: a source location, standing in for
`proc_macro2::Span`.  `file` distinguishes origins between which joining is
impossible. -/
structure Span where
  file : Nat
  lo : Nat
  hi : Nat
deriving DecidableEq, Repr

/-- Modelled from the spec: `proc_macro2::Span::join` returns the covering
span when the two spans can be joined and `none` otherwise (spans from
different origins cannot be joined); the validator falls back to the
`offset_after` span in that case. -/
def Span.join (a b : Span) : Option Span :=
  if a.file = b.file then some ⟨a.file, min a.lo b.lo, max a.hi b.hi⟩ else none

/-- Opaque expression fragment: stored, never interpreted by this engine. -/
abbrev TokenStream := String

/-- Modelled from the spec: a value paired with the source span it came
from, standing in for `binrw_derive`'s `SpannedValue<T>`. -/
structure SpannedValue (α : Type) where
  value : α
  span : Span
deriving DecidableEq, Repr

abbrev Ident := String

/-- Modelled from the spec: endianness choice of §3,
one of inherited, fixed-big, fixed-little, conditional(big),
conditional(little) (`CondEndian` in `super::types`). -/
inductive CondEndian
  | Inherited
  | FixedBig
  | FixedLittle
  | CondBig (condition : TokenStream)
  | CondLittle (condition : TokenStream)
deriving DecidableEq, Repr

def CondEndian.isInherited : CondEndian → Bool
  | .Inherited => true
  | _ => false

/-- Modelled from the spec: value-transform of §3, one of none,
map(function), try-map(function), repr(alternate-type) (`Map` in
`super::types`). -/
inductive Map
  | None
  | MapFn (f : TokenStream)
  | Try (f : TokenStream)
  | Repr (t : TokenStream)
deriving DecidableEq, Repr

def Map.is_none : Map → Bool
  | .None => true
  | _ => false

/-- Modelled from the spec: `magic` is an optional fixed pattern that must
match, carrying the span of the directive that supplied it. -/
abbrev Magic := Option (SpannedValue TokenStream)

def Magic.is_some (m : Magic) : Bool := Option.isSome m

/-- Modelled from the spec: arguments of §3, one of none, explicit
expression list, raw forwarded expression (`PassedArgs` in
`super::types`). -/
inductive PassedArgs
  | None
  | List (args : List TokenStream)
  | Tuple (raw : TokenStream)
deriving DecidableEq, Repr

def PassedArgs.is_some : PassedArgs → Bool
  | .None => false
  | _ => true

def PassedArgs.isNone : PassedArgs → Bool
  | .None => true
  | _ => false

/-- Modelled from the spec: read-mode of §3, one of normal-parse,
calculated(expression), default-value, custom-parser(expression),
custom-writer(expression) (`FieldMode` in `super::types`). -/
inductive FieldMode
  | Normal
  | Calc (expr : TokenStream)
  | Default
  | ParseWith (expr : TokenStream)
  | WriteWith (expr : TokenStream)
deriving DecidableEq, Repr

def FieldMode.isNormal : FieldMode → Bool
  | .Normal => true
  | _ => false

def FieldMode.isCalc : FieldMode → Bool
  | .Calc _ => true
  | _ => false

/-- Modelled from the spec: a parse condition (`if`), an opaque boolean
expression with an optional alternate value. -/
structure Condition where
  condition : TokenStream
  alternate : Option TokenStream
deriving DecidableEq, Repr

/-- Modelled from the spec: an assertion, a boolean expression with an
optional custom error. -/
structure Assert where
  condition : TokenStream
  consequent : Option TokenStream
deriving DecidableEq, Repr

/-- Modelled from the spec: optional custom wrapping applied to errors
arising from a field; opaque to this engine. -/
abbrev ErrContext := TokenStream

/-- Modelled from the spec: `syn::Error`, a non-empty collection of
(span, message) diagnostics; `combine` appends. -/
abbrev SynError := List (Span × String)

def SynError.combine (a b : SynError) : SynError := a ++ b

/-- Resolution outcome (`ParseResult` in the parser module): full success,
partial success carrying a best-effort value plus accumulated errors, or
total failure. -/
inductive ParseResult (α : Type)
  | Ok (value : α)
  | Partial (value : α) (error : SynError)
  | Err (error : SynError)
deriving DecidableEq, Repr

def ParseResult.map {α β : Type} (f : α → β) : ParseResult α → ParseResult β
  | .Ok v => .Ok (f v)
  | .Partial v e => .Partial (f v) e
  | .Err e => .Err e

/-- `crate::Options`: the active output mode (read when `write = false`). -/
structure Options where
  write : Bool
deriving DecidableEq, Repr

/-- Modelled from the spec: the Directive Catalog (§4.1) as scanner output
(§6): one raw directive, carrying its keyword span and payload.  The
constructor names follow the `#[from(...)]` attribute names in
`field_level_attrs.rs`. -/
inductive Directive
  | Big (kw : Span)
  | Little (kw : Span)
  | IsBig (kw : Span) (condition : TokenStream)
  | IsLittle (kw : Span) (condition : TokenStream)
  | Map (kw : Span) (f : TokenStream)
  | TryMap (kw : Span) (f : TokenStream)
  | Repr (kw : Span) (t : TokenStream)
  | Magic (kw : Span) (v : TokenStream)
  | Args (kw : Span) (args : List TokenStream)
  | ArgsRaw (kw : Span) (raw : TokenStream)
  | Calc (kw : Span) (expr : TokenStream)
  | Default (kw : Span)
  | Ignore (kw : Span)
  | ParseWith (kw : Span) (expr : TokenStream)
  | WriteWith (kw : Span) (expr : TokenStream)
  | Count (kw : Span) (expr : TokenStream)
  | Offset (kw : Span) (expr : TokenStream)
  | OffsetAfter (kw : Span) (expr : TokenStream)
  | If (kw : Span) (condition : TokenStream) (alternate : Option TokenStream)
  | DerefNow (kw : Span)
  | PostProcessNow (kw : Span)
  | RestorePosition (kw : Span)
  | Try (kw : Span)
  | Temp (kw : Span)
  | Assert (kw : Span) (condition : TokenStream) (consequent : Option TokenStream)
  | ErrContext (kw : Span) (e : TokenStream)
  | PadBefore (kw : Span) (expr : TokenStream)
  | PadAfter (kw : Span) (expr : TokenStream)
  | AlignBefore (kw : Span) (expr : TokenStream)
  | AlignAfter (kw : Span) (expr : TokenStream)
  | SeekBefore (kw : Span) (expr : TokenStream)
  | PadSizeTo (kw : Span) (expr : TokenStream)
  | PreAssert (kw : Span) (condition : TokenStream) (consequent : Option TokenStream)
deriving DecidableEq, Repr

/-- The keyword span of a directive. -/
def Directive.kwSpan : Directive → Span
  | .Big kw => kw
  | .Little kw => kw
  | .IsBig kw _ => kw
  | .IsLittle kw _ => kw
  | .Map kw _ => kw
  | .TryMap kw _ => kw
  | .Repr kw _ => kw
  | .Magic kw _ => kw
  | .Args kw _ => kw
  | .ArgsRaw kw _ => kw
  | .Calc kw _ => kw
  | .Default kw => kw
  | .Ignore kw => kw
  | .ParseWith kw _ => kw
  | .WriteWith kw _ => kw
  | .Count kw _ => kw
  | .Offset kw _ => kw
  | .OffsetAfter kw _ => kw
  | .If kw _ _ => kw
  | .DerefNow kw => kw
  | .PostProcessNow kw => kw
  | .RestorePosition kw => kw
  | .Try kw => kw
  | .Temp kw => kw
  | .Assert kw _ _ => kw
  | .ErrContext kw _ => kw
  | .PadBefore kw _ => kw
  | .PadAfter kw _ => kw
  | .AlignBefore kw _ => kw
  | .AlignAfter kw _ => kw
  | .SeekBefore kw _ => kw
  | .PadSizeTo kw _ => kw
  | .PreAssert kw _ _ => kw

/-- `syn::Field`: the field definition handed to the resolver — an optional
explicit identifier, the declared type (opaque), the field's own span, and
the ordered raw directive list produced by the attribute scanner (§6). -/
structure Field where
  ident : Option Ident
  ty : TokenStream
  span : Span
  attrs : List Directive
deriving DecidableEq, Repr

/-- `StructField` from `field_level_attrs.rs`: the resolved FieldSpec.  The
attribute fields and their `SpannedValue` wrappers follow the Rust struct
declaration field for field (`keyword_spans` is the extra span accumulator
the `attr_struct!` macro adds). -/
structure StructField where
  ident : Ident
  generated_ident : Bool
  ty : TokenStream
  field : Field
  endian : CondEndian
  map : Map
  magic : Magic
  args : PassedArgs
  read_mode : FieldMode
  count : Option TokenStream
  offset : Option TokenStream
  offset_after : Option (SpannedValue TokenStream)
  if_cond : Option Condition
  deref_now : Option (SpannedValue Unit)
  restore_position : Option Unit
  do_try : Option (SpannedValue Unit)
  temp : Option Unit
  assertions : List Assert
  err_context : Option ErrContext
  pad_before : Option TokenStream
  pad_after : Option TokenStream
  align_before : Option TokenStream
  align_after : Option TokenStream
  seek_before : Option TokenStream
  pad_size_to : Option TokenStream
  keyword_spans : List Span
deriving DecidableEq, Repr

/-- `StructField::can_call_after_parse`. -/
def StructField.can_call_after_parse (self : StructField) : Bool :=
  self.read_mode.isNormal && self.map.is_none

/-- `StructField::should_use_after_parse`. -/
def StructField.should_use_after_parse (self : StructField) : Bool :=
  self.deref_now.isNone && self.map.is_none

/-- `StructField::generated_value`: true when the field is generated from a
calculated value instead of a parser. -/
def StructField.generated_value (self : StructField) : Bool :=
  match self.read_mode with
  | .Calc _ => true
  | .Default => true
  | _ => false

/-- `StructField::is_temp`. -/
def StructField.is_temp (self : StructField) (for_write : Bool) : Bool :=
  (for_write && self.read_mode.isCalc) || self.temp.isSome

/-- `StructField::is_written`: true if the field is actually written. -/
def StructField.is_written (self : StructField) : Bool :=
  !(self.read_mode = FieldMode.Default)

/-- `StructField::needs_options`. -/
def StructField.needs_options (self : StructField) : Bool :=
  !self.generated_value || self.magic.is_some

/-- `StructField::has_no_attrs`: true if the only field-level attributes
are asserts.  The checked fields are exactly those in the Rust
`all_fields_none!` invocation plus the four leading `matches!` checks;
`assertions` and `err_context` are not checked. -/
def StructField.has_no_attrs (self : StructField) : Bool :=
  self.endian.isInherited
    && self.map.is_none
    && self.args.isNone
    && self.read_mode.isNormal
    && self.count.isNone
    && self.offset.isNone
    && self.offset_after.isNone
    && self.if_cond.isNone
    && self.deref_now.isNone
    && self.restore_position.isNone
    && self.do_try.isNone
    && self.temp.isNone
    && self.pad_before.isNone
    && self.pad_after.isNone
    && self.align_before.isNone
    && self.align_after.isNone
    && self.seek_before.isNone
    && self.pad_size_to.isNone
    && self.magic.isNone

/-- `StructField::force_temp`: the single permitted late mutation, modelled
functionally. -/
def StructField.force_temp (self : StructField) : StructField :=
  { self with temp := some () }

/-- Message of the deref_now/offset_after mutual-exclusion error. -/
def derefNowOffsetAfterMsg : String :=
  "`deref_now` and `offset_after` are mutually exclusive"

/-- Message of the try/calc-or-default incompatibility error. -/
def tryIncompatibleMsg : String :=
  "`try` is incompatible with `default` and `calc`"

/-- Message of the args/calc incompatibility error. -/
def argsIncompatibleMsg : String :=
  "`args` is incompatible with `calc`"

/-- The third clause of `StructField::validate`: `args` is incompatible
with `calc`. -/
def StructField.validateArgs (self : StructField) : Except SynError Unit :=
  if self.read_mode.isCalc && self.args.is_some then
    Except.error [(self.field.span, argsIncompatibleMsg)]
  else
    Except.ok ()

/-- `StructField::validate`: the cross-directive consistency check, an
if/else-if chain producing at most one error.  The mutual-exclusion error's
span is the join of the two spans, falling back to the `offset_after`
span when joining fails. -/
def StructField.validate (self : StructField) (_o : Options) : Except SynError Unit :=
  match self.offset_after, self.deref_now with
  | some offset_after, some deref_now =>
      let offset_after_span := offset_after.span
      let span := (Span.join offset_after_span deref_now.span).getD offset_after_span
      Except.error [(span, derefNowOffsetAfterMsg)]
  | _, _ =>
      match self.do_try with
      | some do_try_v =>
          if self.generated_value then
            Except.error [(do_try_v.span, tryIncompatibleMsg)]
          else
            self.validateArgs
      | none => self.validateArgs

/-- Message of a fold-time error: a single-valued attribute set twice (the
first occurrence keeps its value). -/
def conflictingKeywordMsg : String := "conflicting keyword"

/-- Message of a fold-time error: a directive not recognized for the active
mode or target. -/
def unsupportedKeywordMsg : String := "unsupported keyword"

/-- Modelled from the spec: the Directive Catalog's mode partition (§4.1),
following the `R:`/`W:`/`RW:` tags on `StructField`'s `#[from(...)]`
attributes.  Returns true when the directive is legal for the active mode
of field resolution. -/
def Directive.legalForField (write : Bool) : Directive → Bool
  | .Big _ => true
  | .Little _ => true
  | .IsBig _ _ => true
  | .IsLittle _ _ => true
  | .Map _ _ => true
  | .TryMap _ _ => true
  | .Repr _ _ => true
  | .Magic _ _ => true
  | .Args _ _ => true
  | .ArgsRaw _ _ => true
  | .Calc _ _ => true
  | .Default _ => !write
  | .Ignore _ => true
  | .ParseWith _ _ => !write
  | .WriteWith _ _ => write
  | .Count _ _ => !write
  | .Offset _ _ => !write
  | .OffsetAfter _ _ => !write
  | .If _ _ _ => !write
  | .DerefNow _ => !write
  | .PostProcessNow _ => !write
  | .RestorePosition _ => true
  | .Try _ => !write
  | .Temp _ => !write
  | .Assert _ _ _ => true
  | .ErrContext _ _ => !write
  | .PadBefore _ _ => true
  | .PadAfter _ _ => true
  | .AlignBefore _ _ => true
  | .AlignAfter _ _ => true
  | .SeekBefore _ _ => true
  | .PadSizeTo _ _ => true
  | .PreAssert _ _ _ => false

/-- Record a consumed directive keyword's span (the `keyword_spans`
accumulator of the `attr_struct!` macro). -/
def StructField.pushKw (self : StructField) (kw : Span) : StructField :=
  { self with keyword_spans := self.keyword_spans ++ [kw] }

/-- Modelled from the spec: fold one recognized directive into the spec
(§4.2) — the first occurrence of a single-valued attribute sets it, a
second occurrence is a fold-time error (the original value is kept, the
error points at the duplicate keyword); list-valued attributes
(assertions) append.  Returns the updated spec and the errors this
directive contributed. -/
def StructField.applyLegal (self : StructField) : Directive → StructField × SynError
  | .Big kw =>
      if self.endian.isInherited then ({ self.pushKw kw with endian := .FixedBig }, [])
      else (self, [(kw, conflictingKeywordMsg)])
  | .Little kw =>
      if self.endian.isInherited then ({ self.pushKw kw with endian := .FixedLittle }, [])
      else (self, [(kw, conflictingKeywordMsg)])
  | .IsBig kw c =>
      if self.endian.isInherited then ({ self.pushKw kw with endian := .CondBig c }, [])
      else (self, [(kw, conflictingKeywordMsg)])
  | .IsLittle kw c =>
      if self.endian.isInherited then ({ self.pushKw kw with endian := .CondLittle c }, [])
      else (self, [(kw, conflictingKeywordMsg)])
  | .Map kw f =>
      if self.map.is_none then ({ self.pushKw kw with map := .MapFn f }, [])
      else (self, [(kw, conflictingKeywordMsg)])
  | .TryMap kw f =>
      if self.map.is_none then ({ self.pushKw kw with map := .Try f }, [])
      else (self, [(kw, conflictingKeywordMsg)])
  | .Repr kw t =>
      if self.map.is_none then ({ self.pushKw kw with map := .Repr t }, [])
      else (self, [(kw, conflictingKeywordMsg)])
  | .Magic kw v =>
      if self.magic.isNone then ({ self.pushKw kw with magic := some ⟨v, kw⟩ }, [])
      else (self, [(kw, conflictingKeywordMsg)])
  | .Args kw l =>
      if self.args.isNone then ({ self.pushKw kw with args := .List l }, [])
      else (self, [(kw, conflictingKeywordMsg)])
  | .ArgsRaw kw r =>
      if self.args.isNone then ({ self.pushKw kw with args := .Tuple r }, [])
      else (self, [(kw, conflictingKeywordMsg)])
  | .Calc kw e =>
      if self.read_mode.isNormal then ({ self.pushKw kw with read_mode := .Calc e }, [])
      else (self, [(kw, conflictingKeywordMsg)])
  | .Default kw =>
      if self.read_mode.isNormal then ({ self.pushKw kw with read_mode := .Default }, [])
      else (self, [(kw, conflictingKeywordMsg)])
  | .Ignore kw =>
      if self.read_mode.isNormal then ({ self.pushKw kw with read_mode := .Default }, [])
      else (self, [(kw, conflictingKeywordMsg)])
  | .ParseWith kw e =>
      if self.read_mode.isNormal then ({ self.pushKw kw with read_mode := .ParseWith e }, [])
      else (self, [(kw, conflictingKeywordMsg)])
  | .WriteWith kw e =>
      if self.read_mode.isNormal then ({ self.pushKw kw with read_mode := .WriteWith e }, [])
      else (self, [(kw, conflictingKeywordMsg)])
  | .Count kw e =>
      if self.count.isNone then ({ self.pushKw kw with count := some e }, [])
      else (self, [(kw, conflictingKeywordMsg)])
  | .Offset kw e =>
      if self.offset.isNone then ({ self.pushKw kw with offset := some e }, [])
      else (self, [(kw, conflictingKeywordMsg)])
  | .OffsetAfter kw e =>
      if self.offset_after.isNone then
        ({ self.pushKw kw with offset_after := some ⟨e, kw⟩ }, [])
      else (self, [(kw, conflictingKeywordMsg)])
  | .If kw c alt =>
      if self.if_cond.isNone then ({ self.pushKw kw with if_cond := some ⟨c, alt⟩ }, [])
      else (self, [(kw, conflictingKeywordMsg)])
  | .DerefNow kw =>
      if self.deref_now.isNone then ({ self.pushKw kw with deref_now := some ⟨(), kw⟩ }, [])
      else (self, [(kw, conflictingKeywordMsg)])
  | .PostProcessNow kw =>
      if self.deref_now.isNone then ({ self.pushKw kw with deref_now := some ⟨(), kw⟩ }, [])
      else (self, [(kw, conflictingKeywordMsg)])
  | .RestorePosition kw =>
      if self.restore_position.isNone then
        ({ self.pushKw kw with restore_position := some () }, [])
      else (self, [(kw, conflictingKeywordMsg)])
  | .Try kw =>
      if self.do_try.isNone then ({ self.pushKw kw with do_try := some ⟨(), kw⟩ }, [])
      else (self, [(kw, conflictingKeywordMsg)])
  | .Temp kw =>
      if self.temp.isNone then ({ self.pushKw kw with temp := some () }, [])
      else (self, [(kw, conflictingKeywordMsg)])
  | .Assert kw c m =>
      ({ self.pushKw kw with assertions := self.assertions ++ [⟨c, m⟩] }, [])
  | .ErrContext kw e =>
      if self.err_context.isNone then ({ self.pushKw kw with err_context := some e }, [])
      else (self, [(kw, conflictingKeywordMsg)])
  | .PadBefore kw e =>
      if self.pad_before.isNone then ({ self.pushKw kw with pad_before := some e }, [])
      else (self, [(kw, conflictingKeywordMsg)])
  | .PadAfter kw e =>
      if self.pad_after.isNone then ({ self.pushKw kw with pad_after := some e }, [])
      else (self, [(kw, conflictingKeywordMsg)])
  | .AlignBefore kw e =>
      if self.align_before.isNone then ({ self.pushKw kw with align_before := some e }, [])
      else (self, [(kw, conflictingKeywordMsg)])
  | .AlignAfter kw e =>
      if self.align_after.isNone then ({ self.pushKw kw with align_after := some e }, [])
      else (self, [(kw, conflictingKeywordMsg)])
  | .SeekBefore kw e =>
      if self.seek_before.isNone then ({ self.pushKw kw with seek_before := some e }, [])
      else (self, [(kw, conflictingKeywordMsg)])
  | .PadSizeTo kw e =>
      if self.pad_size_to.isNone then ({ self.pushKw kw with pad_size_to := some e }, [])
      else (self, [(kw, conflictingKeywordMsg)])
  | d => (self, [(d.kwSpan, unsupportedKeywordMsg)])

/-- Modelled from the spec: fold one raw directive into the spec — an
unrecognized directive for the active mode is a fold-time error at its
location (§4.1), a recognized one is applied by `applyLegal`. -/
def StructField.applyDirective (o : Options) (self : StructField) (d : Directive) :
    StructField × SynError :=
  if d.legalForField o.write then self.applyLegal d
  else (self, [(d.kwSpan, unsupportedKeywordMsg)])

/-- Modelled from the spec: total fold of the raw directive list (§4.2) —
an error folding one directive does not stop folding of subsequent
directives; errors accumulate in source order. -/
def StructField.foldAttrs (o : Options) : StructField × SynError → List Directive →
    StructField × SynError
  | acc, [] => acc
  | (sf, errs), d :: rest =>
      let next := StructField.applyDirective o sf d
      StructField.foldAttrs o (next.1, errs ++ next.2) rest

/-- Modelled from the spec: `FromAttrs::set_from_attrs` — fold every raw
directive, then return full success when no error accumulated and a
partial result (best-effort spec plus the accumulated error set)
otherwise. -/
def StructField.set_from_attrs (self : StructField) (attrs : List Directive) (o : Options) :
    ParseResult StructField :=
  match StructField.foldAttrs o (self, []) attrs with
  | (sf, []) => ParseResult.Ok sf
  | (sf, e :: rest) => ParseResult.Partial sf (e :: rest)

/-- The all-defaults initial spec built at the top of
`StructField::from_field`: identifier synthesized as `self_<index>` for a
positional field, every attribute at its default. -/
def StructField.initial (field : Field) (index : Nat) : StructField :=
  { ident := field.ident.getD ("self_" ++ toString index)
    generated_ident := field.ident.isNone
    ty := field.ty
    field := field
    endian := .Inherited
    map := .None
    magic := none
    args := .None
    read_mode := .Normal
    count := none
    offset := none
    offset_after := none
    if_cond := none
    deref_now := none
    restore_position := none
    do_try := none
    temp := none
    assertions := []
    err_context := none
    pad_before := none
    pad_after := none
    align_before := none
    align_after := none
    seek_before := none
    pad_size_to := none
    keyword_spans := [] }

/-- `<StructField as FromField>::from_field`: build the initial spec, fold
the attribute list, then run `validate` on the result — a validation error
downgrades a clean fold to a partial result, and is combined into an
already-partial result's error set. -/
def StructField.from_field (field : Field) (index : Nat) (options : Options) :
    ParseResult StructField :=
  match StructField.set_from_attrs (StructField.initial field index) field.attrs options with
  | .Ok this =>
      match this.validate options with
      | .error error => .Partial this error
      | .ok _ => .Ok this
  | .Partial this parse_error =>
      match this.validate options with
      | .error error => .Partial this (SynError.combine parse_error error)
      | .ok _ => .Partial this parse_error
  | .Err error => .Err error

/-- `UnitEnumField` from `field_level_attrs.rs`: a Unit case — identifier,
optional magic, ordered pre-condition assertions (`keyword_spans` is the
`attr_struct!` accumulator). -/
structure UnitEnumField where
  ident : Ident
  magic : Magic
  pre_assertions : List Assert
  keyword_spans : List Span
deriving DecidableEq, Repr

/-- Modelled from the spec: the Unit path's directive fold (§4.4) — a Unit
case recognizes only `magic` (both modes) and `pre_assert` (read mode),
per the `RW:Magic` / `R:PreAssert` tags on `UnitEnumField`; anything else
is a fold-time error at its location. -/
def UnitEnumField.applyDirective (o : Options) (self : UnitEnumField) (d : Directive) :
    UnitEnumField × SynError :=
  match d with
  | .Magic kw v =>
      if self.magic.isNone then
        ({ self with magic := some ⟨v, kw⟩, keyword_spans := self.keyword_spans ++ [kw] }, [])
      else (self, [(kw, conflictingKeywordMsg)])
  | .PreAssert kw c m =>
      if o.write then (self, [(kw, unsupportedKeywordMsg)])
      else
        ({ self with pre_assertions := self.pre_assertions ++ [⟨c, m⟩], keyword_spans := self.keyword_spans ++ [kw] }, [])
  | d => (self, [(d.kwSpan, unsupportedKeywordMsg)])

/-- Modelled from the spec: total fold of a Unit case's directives,
accumulating errors in source order (§4.2, §4.4). -/
def UnitEnumField.foldAttrs (o : Options) : UnitEnumField × SynError → List Directive →
    UnitEnumField × SynError
  | acc, [] => acc
  | (u, errs), d :: rest =>
      let next := UnitEnumField.applyDirective o u d
      UnitEnumField.foldAttrs o (next.1, errs ++ next.2) rest

/-- `syn::Variant`: a sum-type case definition — identifier, its attached
raw directives, and its field list shape. -/
inductive Fields
  | Named (fields : List Field)
  | Unnamed (fields : List Field)
  | Unit
deriving DecidableEq, Repr

/-- The number of fields a `Fields` shape holds. -/
def Fields.fieldCount : Fields → Nat
  | .Named fs => fs.length
  | .Unnamed fs => fs.length
  | .Unit => 0

/-- The fields a `Fields` shape holds, in order (`Fields::iter`). -/
def Fields.fieldList : Fields → List Field
  | .Named fs => fs
  | .Unnamed fs => fs
  | .Unit => []

structure Variant where
  ident : Ident
  attrs : List Directive
  fields : Fields
deriving DecidableEq, Repr

/-- `<UnitEnumField as FromField>::from_field`: initialize from the
variant's identifier with all defaults, then fold the variant's
directives. -/
def UnitEnumField.from_field (field : Variant) (_index : Nat) (options : Options) :
    ParseResult UnitEnumField :=
  let this : UnitEnumField :=
    { ident := field.ident, magic := none, pre_assertions := [], keyword_spans := [] }
  match UnitEnumField.foldAttrs options (this, []) field.attrs with
  | (u, []) => ParseResult.Ok u
  | (u, e :: rest) => ParseResult.Partial u (e :: rest)

/-- Modelled from the spec: `Struct` (`super::top_level_attrs`), the
recursively-resolved structure specification of a Compound case (§3):
struct-level endianness, value-transform, magic, assertions and
pre-condition assertions, plus the ordered resolved FieldSpecs. -/
structure Struct where
  endian : CondEndian
  map : Map
  magic : Magic
  assertions : List Assert
  pre_assertions : List Assert
  fields : List StructField
deriving DecidableEq, Repr

/-- `Struct`'s `Default::default()`: every attribute unset, no fields. -/
def Struct.mkDefault : Struct :=
  { endian := .Inherited, map := .None, magic := none, assertions := [],
    pre_assertions := [], fields := [] }

/-- Modelled from the spec: `Struct::has_no_attrs` — the §4.4 uniformity
contract ("has no attributes", true for every converted Unit case, which
may still carry magic and pre-assertions and always has zero fields):
every contained FieldSpec reports `has_no_attrs`. -/
def Struct.has_no_attrs (self : Struct) : Bool :=
  self.fields.all StructField.has_no_attrs

/-- `impl From<UnitEnumField> for Struct`: the Compound-shaped view of a
Unit case — the case's magic and pre-assertions, every other structure
attribute at its default (hence zero fields). -/
def Struct.ofUnitEnumField (value : UnitEnumField) : Struct :=
  { Struct.mkDefault with magic := value.magic, pre_assertions := value.pre_assertions }

/-- Modelled from the spec: struct-level directive fold (§4.4 "plus
struct-level directives") — a structure recognizes endianness,
value-transform and magic (single-valued), and the two assertion lists
(appending); other directives are fold-time errors at their location. -/
def Struct.applyDirective (o : Options) (self : Struct) (d : Directive) :
    Struct × SynError :=
  match d with
  | .Big kw =>
      if self.endian.isInherited then ({ self with endian := .FixedBig }, [])
      else (self, [(kw, conflictingKeywordMsg)])
  | .Little kw =>
      if self.endian.isInherited then ({ self with endian := .FixedLittle }, [])
      else (self, [(kw, conflictingKeywordMsg)])
  | .IsBig kw c =>
      if self.endian.isInherited then ({ self with endian := .CondBig c }, [])
      else (self, [(kw, conflictingKeywordMsg)])
  | .IsLittle kw c =>
      if self.endian.isInherited then ({ self with endian := .CondLittle c }, [])
      else (self, [(kw, conflictingKeywordMsg)])
  | .Map kw f =>
      if self.map.is_none then ({ self with map := .MapFn f }, [])
      else (self, [(kw, conflictingKeywordMsg)])
  | .TryMap kw f =>
      if self.map.is_none then ({ self with map := .Try f }, [])
      else (self, [(kw, conflictingKeywordMsg)])
  | .Repr kw t =>
      if self.map.is_none then ({ self with map := .Repr t }, [])
      else (self, [(kw, conflictingKeywordMsg)])
  | .Magic kw v =>
      if self.magic.isNone then ({ self with magic := some ⟨v, kw⟩ }, [])
      else (self, [(kw, conflictingKeywordMsg)])
  | .Assert _kw c m =>
      ({ self with assertions := self.assertions ++ [⟨c, m⟩] }, [])
  | .PreAssert kw c m =>
      if o.write then (self, [(kw, unsupportedKeywordMsg)])
      else ({ self with pre_assertions := self.pre_assertions ++ [⟨c, m⟩] }, [])
  | d => (self, [(d.kwSpan, unsupportedKeywordMsg)])

/-- Modelled from the spec: total fold of struct-level directives. -/
def Struct.foldAttrs (o : Options) : Struct × SynError → List Directive →
    Struct × SynError
  | acc, [] => acc
  | (s, errs), d :: rest =>
      let next := Struct.applyDirective o s d
      Struct.foldAttrs o (next.1, errs ++ next.2) rest

/-- Modelled from the spec: resolve every field in order with the Field
Resolver (§4.2, §4.4), keeping each best-effort spec and combining every
field's error set; a field whose resolution failed totally contributes its
error and no spec. -/
def Struct.resolveFields (o : Options) (fields : List Field) (index : Nat) :
    List StructField × SynError :=
  match fields with
  | [] => ([], [])
  | f :: rest =>
      let head := StructField.from_field f index o
      let tail := Struct.resolveFields o rest (index + 1)
      match head with
      | .Ok sf => (sf :: tail.1, tail.2)
      | .Partial sf e => (sf :: tail.1, SynError.combine e tail.2)
      | .Err e => (tail.1, SynError.combine e tail.2)

/-- Modelled from the spec: `<Struct as FromInput>::from_input` — full
recursive structure resolution: fold struct-level directives, resolve every
field, combine all accumulated errors into one partial result (§4.4). -/
def Struct.from_input (attrs : List Directive) (fields : List Field) (o : Options) :
    ParseResult Struct :=
  let top := Struct.foldAttrs o (Struct.mkDefault, []) attrs
  let fs := Struct.resolveFields o fields 0
  match SynError.combine top.2 fs.2 with
  | [] => ParseResult.Ok { top.1 with fields := fs.1 }
  | e :: rest => ParseResult.Partial { top.1 with fields := fs.1 } (e :: rest)

/-- `EnumVariant` from `field_level_attrs.rs`: a resolved sum-type case,
either a Compound case (identifier plus recursively-resolved structure)
or a Unit case. -/
inductive EnumVariant
  | Variant (ident : Ident) (options : Struct)
  | Unit (field : UnitEnumField)
deriving DecidableEq, Repr

/-- `EnumVariant::ident`. -/
def EnumVariant.ident : EnumVariant → Ident
  | .Variant ident _ => ident
  | .Unit field => field.ident

/-- `EnumVariant::has_no_attrs`: delegates to the nested structure for a
Compound case and is unconditionally true for a Unit case. -/
def EnumVariant.has_no_attrs : EnumVariant → Bool
  | .Variant _ options => options.has_no_attrs
  | .Unit _ => true

/-- True when the resolved case took the Unit path. -/
def EnumVariant.isUnit : EnumVariant → Bool
  | .Variant _ _ => false
  | .Unit _ => true

/-- `impl From<EnumVariant> for Struct`. -/
def Struct.ofEnumVariant : EnumVariant → Struct
  | .Variant _ options => options
  | .Unit options => Struct.ofUnitEnumField options

/-- `<EnumVariant as FromField>::from_field`: a variant with a named or
unnamed field list — even an empty one — goes through full recursive
structure resolution and is wrapped as a Compound case; only the unit
syntactic shape (no field list at all) goes through the Unit path. -/
def EnumVariant.from_field (variant : Binrw.Variant) (index : Nat) (options : Options) :
    ParseResult EnumVariant :=
  match variant.fields with
  | .Named fs =>
      (Struct.from_input variant.attrs fs options).map
        (fun s => EnumVariant.Variant variant.ident s)
  | .Unnamed fs =>
      (Struct.from_input variant.attrs fs options).map
        (fun s => EnumVariant.Variant variant.ident s)
  | .Unit =>
      (UnitEnumField.from_field variant index options).map EnumVariant.Unit

/-- The error set an `Except`-valued check produced (empty on success). -/
def errorsOf : Except SynError Unit → SynError
  | .ok _ => []
  | .error e => e

/-- True when some diagnostic in the error set carries message `m`. -/
def msgMem (m : String) (e : SynError) : Bool :=
  e.any (fun p => p.2 = m)

lemma isInherited_iff (e : CondEndian) : e.isInherited = true ↔ e = CondEndian.Inherited := by
  cases e <;> simp [CondEndian.isInherited]

lemma map_is_none_iff (m : Map) : m.is_none = true ↔ m = Map.None := by
  cases m <;> simp [Map.is_none]

lemma args_isNone_iff (a : PassedArgs) : a.isNone = true ↔ a = PassedArgs.None := by
  cases a <;> simp [PassedArgs.isNone]

lemma mode_isNormal_iff (m : FieldMode) : m.isNormal = true ↔ m = FieldMode.Normal := by
  cases m <;> simp [FieldMode.isNormal]

lemma validate_mutex (sf : StructField) (o : Options) (oa : SpannedValue TokenStream)
    (dn : SpannedValue Unit) (h1 : sf.offset_after = some oa) (h2 : sf.deref_now = some dn) :
    sf.validate o =
      Except.error [((Span.join oa.span dn.span).getD oa.span, derefNowOffsetAfterMsg)] := by
  simp [StructField.validate, h1, h2]

lemma validate_no_mutex_try (sf : StructField) (o : Options) (dt : SpannedValue Unit)
    (hm : sf.offset_after = none ∨ sf.deref_now = none) (h : sf.do_try = some dt) :
    sf.validate o =
      if sf.generated_value then Except.error [(dt.span, tryIncompatibleMsg)]
      else sf.validateArgs := by
  rcases hm with hm | hm
  · simp [StructField.validate, hm, h]
  · cases hoa : sf.offset_after <;> simp [StructField.validate, hoa, hm, h]

lemma validate_no_mutex_no_try (sf : StructField) (o : Options)
    (hm : sf.offset_after = none ∨ sf.deref_now = none) (h : sf.do_try = none) :
    sf.validate o = sf.validateArgs := by
  rcases hm with hm | hm
  · simp [StructField.validate, hm, h]
  · cases hoa : sf.offset_after <;> simp [StructField.validate, hoa, hm, h]

lemma validate_error_length (sf : StructField) (o : Options) (e : SynError)
    (h : sf.validate o = Except.error e) : e.length = 1 := by
  unfold StructField.validate StructField.validateArgs at h
  repeat' split at h
  all_goals first
    | (injection h with h; exact h ▸ rfl)
    | (exact absurd h (by simp))

lemma from_field_ok_validate (f : Field) (i : Nat) (o : Options) (sf : StructField)
    (h : StructField.from_field f i o = ParseResult.Ok sf) :
    sf.validate o = Except.ok () := by
  unfold StructField.from_field at h
  rcases hs : StructField.set_from_attrs (StructField.initial f i) f.attrs o with
    sf0 | ⟨sf0, pe⟩ | pe <;> rw [hs] at h <;> dsimp only at h
  · cases hv : sf0.validate o <;> rw [hv] at h
    · cases h
    · cases h
      exact hv
  · cases hv : sf0.validate o <;> rw [hv] at h <;> cases h
  · cases h

/-- A field definition carrying only an assertion and an error-context
directive. -/
def fC4 : Field :=
  { ident := some "f"
    ty := "u32"
    span := ⟨0, 0, 10⟩
    attrs := [Directive.Assert ⟨0, 1, 2⟩ "c" none, Directive.ErrContext ⟨0, 3, 4⟩ "ctx"] }

/-- The spec that resolving `fC4` produces: all defaults except one
assertion and an error-context. -/
def sfC4 : StructField :=
  { StructField.initial fC4 0 with
      assertions := [⟨"c", none⟩]
      err_context := some "ctx"
      keyword_spans := [⟨0, 1, 2⟩, ⟨0, 3, 4⟩] }

/-- C4 counterexample: a field resolved with an assertion and an
error-context attached still reports `has_no_attrs = true`, so
`has_no_attrs = true` does not imply that assertions and error-context are
unset — the query does not check those two attributes. -/
theorem c4_counterexample :
    StructField.from_field fC4 0 ⟨false⟩ = ParseResult.Ok sfC4 ∧
    sfC4.has_no_attrs = true ∧
    sfC4.assertions ≠ [] ∧
    sfC4.err_context ≠ none := by
  refine ⟨rfl, rfl, ?_, ?_⟩ <;> simp [sfC4]

/-- C4 (amended): `has_no_attrs` returns true exactly when endianness is
inherited, value-transform is none, arguments is none, read-mode is
normal-parse, and each of magic, count, offset, offset-after, condition,
deref-now, restore-position, fallible-attempt, temporary and the
padding/alignment/seek attributes is unset; assertions and error-context
are not checked. -/
theorem c4_amended (sf : StructField) :
    sf.has_no_attrs = true ↔
      (sf.endian = CondEndian.Inherited ∧ sf.map = Map.None ∧
       sf.args = PassedArgs.None ∧ sf.read_mode = FieldMode.Normal ∧
       sf.count = none ∧ sf.offset = none ∧ sf.offset_after = none ∧
       sf.if_cond = none ∧ sf.deref_now = none ∧ sf.restore_position = none ∧
       sf.do_try = none ∧ sf.temp = none ∧ sf.pad_before = none ∧
       sf.pad_after = none ∧ sf.align_before = none ∧ sf.align_after = none ∧
       sf.seek_before = none ∧ sf.pad_size_to = none ∧ sf.magic = none) := by
  simp [StructField.has_no_attrs, Bool.and_eq_true, isInherited_iff,
    map_is_none_iff, args_isNone_iff, mode_isNormal_iff,
    Option.isNone_iff_eq_none, and_assoc]

/-- C8: a Unit case always reports `has_no_attrs = true`, and its
Compound-shaped conversion keeps the case's magic and pre-assertions,
has zero fields and every other structure attribute at its default, and
itself reports `has_no_attrs = true`. -/
theorem c8_unit_uniformity (u : UnitEnumField) :
    EnumVariant.has_no_attrs (EnumVariant.Unit u) = true ∧
    (Struct.ofUnitEnumField u).magic = u.magic ∧
    (Struct.ofUnitEnumField u).pre_assertions = u.pre_assertions ∧
    (Struct.ofUnitEnumField u).fields = [] ∧
    (Struct.ofUnitEnumField u).endian = CondEndian.Inherited ∧
    (Struct.ofUnitEnumField u).map = Map.None ∧
    (Struct.ofUnitEnumField u).assertions = [] ∧
    (Struct.ofUnitEnumField u).has_no_attrs = true :=
  ⟨rfl, rfl, rfl, rfl, rfl, rfl, rfl, rfl⟩

/-- C9: `force_temp` sets the temporary marker, after which
`is_temp` is true in both read and write mode, and every other attribute
of the spec is unchanged. -/
theorem c9_force_temp_frame (sf : StructField) (for_write : Bool) :
    (sf.force_temp).temp = some () ∧
    (sf.force_temp).is_temp for_write = true ∧
    (sf.force_temp).ident = sf.ident ∧
    (sf.force_temp).generated_ident = sf.generated_ident ∧
    (sf.force_temp).ty = sf.ty ∧
    (sf.force_temp).field = sf.field ∧
    (sf.force_temp).endian = sf.endian ∧
    (sf.force_temp).map = sf.map ∧
    (sf.force_temp).magic = sf.magic ∧
    (sf.force_temp).args = sf.args ∧
    (sf.force_temp).read_mode = sf.read_mode ∧
    (sf.force_temp).count = sf.count ∧
    (sf.force_temp).offset = sf.offset ∧
    (sf.force_temp).offset_after = sf.offset_after ∧
    (sf.force_temp).if_cond = sf.if_cond ∧
    (sf.force_temp).deref_now = sf.deref_now ∧
    (sf.force_temp).restore_position = sf.restore_position ∧
    (sf.force_temp).do_try = sf.do_try ∧
    (sf.force_temp).assertions = sf.assertions ∧
    (sf.force_temp).err_context = sf.err_context ∧
    (sf.force_temp).pad_before = sf.pad_before ∧
    (sf.force_temp).pad_after = sf.pad_after ∧
    (sf.force_temp).align_before = sf.align_before ∧
    (sf.force_temp).align_after = sf.align_after ∧
    (sf.force_temp).seek_before = sf.seek_before ∧
    (sf.force_temp).pad_size_to = sf.pad_size_to ∧
    (sf.force_temp).keyword_spans = sf.keyword_spans := by
  refine ⟨rfl, ?_, rfl, rfl, rfl, rfl, rfl, rfl, rfl, rfl, rfl, rfl, rfl, rfl,
    rfl, rfl, rfl, rfl, rfl, rfl, rfl, rfl, rfl, rfl, rfl, rfl, rfl⟩
  simp [StructField.force_temp, StructField.is_temp]

/-- A field carrying four directives whose folded spec has two
simultaneous validation-time violations: deref-now with offset-after, and
try with calc. -/
def fC1 : Field :=
  { ident := some "f"
    ty := "u32"
    span := ⟨0, 0, 20⟩
    attrs := [Directive.Calc ⟨0, 1, 2⟩ "x", Directive.Try ⟨0, 3, 4⟩,
              Directive.DerefNow ⟨0, 5, 6⟩, Directive.OffsetAfter ⟨0, 7, 8⟩ "o"] }

/-- The spec folding `fC1` produces. -/
def sfC1 : StructField :=
  { StructField.initial fC1 0 with
      read_mode := FieldMode.Calc "x"
      do_try := some ⟨(), ⟨0, 3, 4⟩⟩
      deref_now := some ⟨(), ⟨0, 5, 6⟩⟩
      offset_after := some ⟨"o", ⟨0, 7, 8⟩⟩
      keyword_spans := [⟨0, 1, 2⟩, ⟨0, 3, 4⟩, ⟨0, 5, 6⟩, ⟨0, 7, 8⟩] }

/-- C1 counterexample: a folded spec carrying both the
deref-now/offset-after conflict and the try-with-calculated conflict
resolves to an error set with exactly one entry — the mutual-exclusion
error — and the try-incompatibility violation is absent: validation-time
violations do not compose with each other. -/
theorem c1_counterexample :
    StructField.from_field fC1 0 ⟨false⟩ =
      ParseResult.Partial sfC1 [(⟨0, 5, 8⟩, derefNowOffsetAfterMsg)] ∧
    sfC1.do_try.isSome = true ∧
    sfC1.generated_value = true ∧
    sfC1.offset_after.isSome = true ∧
    sfC1.deref_now.isSome = true ∧
    (errorsOf (sfC1.validate ⟨false⟩)).length = 1 ∧
    msgMem tryIncompatibleMsg (errorsOf (sfC1.validate ⟨false⟩)) = false :=
  ⟨rfl, rfl, rfl, rfl, rfl, rfl, rfl⟩

/-- C1 (amended): validation reports at most one validation-time
violation, the first in the fixed check order — whenever the
deref-now/offset-after conflict is present it is the only reported error
(any try-with-calculated violation is suppressed), and the
try-with-calculated error is reported only when the first check did not
fire.  Validation errors compose with fold-time errors, not with each
other. -/
theorem c1_amended (sf : StructField) (o : Options) :
    (∀ oa dn, sf.offset_after = some oa → sf.deref_now = some dn →
      sf.validate o =
        Except.error [((Span.join oa.span dn.span).getD oa.span, derefNowOffsetAfterMsg)]) ∧
    ((sf.offset_after = none ∨ sf.deref_now = none) →
      ∀ dt, sf.do_try = some dt → sf.generated_value = true →
        sf.validate o = Except.error [(dt.span, tryIncompatibleMsg)]) := by
  constructor
  · intro oa dn h1 h2
    exact validate_mutex sf o oa dn h1 h2
  · intro hm dt h hg
    rw [validate_no_mutex_try sf o dt hm h, hg]
    simp

/-- C1 amended witness at `sfC1` (mutex conflict wins) and at a spec with
only the try-with-calc conflict. -/
def sfC1try : StructField :=
  { StructField.initial fC1 0 with
      read_mode := FieldMode.Calc "x"
      do_try := some ⟨(), ⟨0, 3, 4⟩⟩ }

theorem c1_amended_witness :
    StructField.validate sfC1 ⟨false⟩ = Except.error [(⟨0, 5, 8⟩, derefNowOffsetAfterMsg)] ∧
    StructField.validate sfC1try ⟨false⟩ = Except.error [(⟨0, 3, 4⟩, tryIncompatibleMsg)] :=
  ⟨(c1_amended sfC1 ⟨false⟩).1 _ _ rfl rfl,
   (c1_amended sfC1try ⟨false⟩).2 (Or.inl rfl) _ rfl rfl⟩

/-- A field whose only directives are deref-now and offset-after. -/
def fC2 : Field :=
  { ident := some "g"
    ty := "u16"
    span := ⟨0, 0, 30⟩
    attrs := [Directive.DerefNow ⟨0, 11, 12⟩, Directive.OffsetAfter ⟨0, 13, 14⟩ "o2"] }

/-- The spec folding `fC2` produces. -/
def sfC2 : StructField :=
  { StructField.initial fC2 0 with
      deref_now := some ⟨(), ⟨0, 11, 12⟩⟩
      offset_after := some ⟨"o2", ⟨0, 13, 14⟩⟩
      keyword_spans := [⟨0, 11, 12⟩, ⟨0, 13, 14⟩] }

/-- A spec whose deref-now and offset-after spans cannot be joined, to
exhibit the fallback to the offset-after span. -/
def sfC2cross : StructField :=
  { StructField.initial fC2 0 with
      deref_now := some ⟨(), ⟨2, 5, 6⟩⟩
      offset_after := some ⟨"o2", ⟨1, 7, 8⟩⟩ }

/-- C2: a spec with both the deref-now marker and the offset-after
attribute set always validates to the single mutual-exclusion error whose
span is the join of the two spans (falling back to the offset-after span
when joining fails); the error set is non-empty and contains the
violation; every partial resolution producing such a spec carries the
violation in its error set; and no resolution of any field in any mode
returns such a spec error-free. -/
theorem c2_mutual_exclusion (sf : StructField) (o : Options)
    (oa : SpannedValue TokenStream) (dn : SpannedValue Unit)
    (h1 : sf.offset_after = some oa) (h2 : sf.deref_now = some dn) :
    sf.validate o =
      Except.error [((Span.join oa.span dn.span).getD oa.span, derefNowOffsetAfterMsg)] ∧
    errorsOf (sf.validate o) ≠ [] ∧
    msgMem derefNowOffsetAfterMsg (errorsOf (sf.validate o)) = true ∧
    (∀ f i e, StructField.from_field f i o = ParseResult.Partial sf e →
      msgMem derefNowOffsetAfterMsg e = true) ∧
    (∀ f i, StructField.from_field f i o ≠ ParseResult.Ok sf) := by
  have hv := validate_mutex sf o oa dn h1 h2
  refine ⟨hv, ?_, ?_, ?_, ?_⟩
  · rw [hv]
    simp [errorsOf]
  · rw [hv]
    simp [errorsOf, msgMem]
  · intro f i e h
    unfold StructField.from_field at h
    rcases hs : StructField.set_from_attrs (StructField.initial f i) f.attrs o with
      sf0 | ⟨sf0, pe⟩ | pe <;> rw [hs] at h <;> dsimp only at h
    · cases hv0 : sf0.validate o <;> rw [hv0] at h
      · cases h
        rw [hv] at hv0
        cases hv0
        simp [msgMem]
      · cases h
    · cases hv0 : sf0.validate o <;> rw [hv0] at h
      · cases h
        rw [hv] at hv0
        cases hv0
        simp [msgMem, SynError.combine]
      · cases h
        rw [hv] at hv0
        cases hv0
    · cases h
  · intro f i hOk
    have := from_field_ok_validate f i o sf hOk
    rw [hv] at this
    cases this

/-- C2 witness: the joined-span error at `sfC2`, and the fallback span at
`sfC2cross` whose two spans cannot be joined. -/
theorem c2_witness :
    StructField.validate sfC2 ⟨false⟩ =
      Except.error [(⟨0, 11, 14⟩, derefNowOffsetAfterMsg)] ∧
    StructField.validate sfC2cross ⟨false⟩ =
      Except.error [(⟨1, 7, 8⟩, derefNowOffsetAfterMsg)] ∧
    StructField.from_field fC2 0 ⟨false⟩ =
      ParseResult.Partial sfC2 [(⟨0, 11, 14⟩, derefNowOffsetAfterMsg)] ∧
    msgMem derefNowOffsetAfterMsg [(⟨0, 11, 14⟩, derefNowOffsetAfterMsg)] = true :=
  ⟨(c2_mutual_exclusion sfC2 ⟨false⟩ _ _ rfl rfl).1,
   (c2_mutual_exclusion sfC2cross ⟨false⟩ _ _ rfl rfl).1,
   rfl,
   (c2_mutual_exclusion sfC2 ⟨false⟩ _ _ rfl rfl).2.2.2.1 fC2 0
     [(⟨0, 11, 14⟩, derefNowOffsetAfterMsg)] rfl⟩

/-- C3: resolution composes fold-time and validation-time errors — when
directive folding returns a partial result and validation also fails, the
final result is a partial result carrying the same best-effort spec and
the combined (appended) error set, of size at least 2; and when folding
succeeds but validation fails, the result is a partial result still
carrying the usable spec, never a total failure. -/
theorem c3_error_accumulation :
    (∀ (f : Field) (i : Nat) (o : Options) (sf : StructField) (pe ve : SynError),
      StructField.set_from_attrs (StructField.initial f i) f.attrs o =
        ParseResult.Partial sf pe →
      sf.validate o = Except.error ve →
      StructField.from_field f i o = ParseResult.Partial sf (SynError.combine pe ve) ∧
      pe ≠ [] ∧ ve ≠ [] ∧ 2 ≤ (SynError.combine pe ve).length) ∧
    (∀ (f : Field) (i : Nat) (o : Options) (sf : StructField) (ve : SynError),
      StructField.set_from_attrs (StructField.initial f i) f.attrs o = ParseResult.Ok sf →
      sf.validate o = Except.error ve →
      StructField.from_field f i o = ParseResult.Partial sf ve) := by
  constructor
  · intro f i o sf pe ve h1 h2
    have hpe : pe ≠ [] := by
      unfold StructField.set_from_attrs at h1
      split at h1
      · cases h1
      · cases h1
        simp
    have hve : ve.length = 1 := validate_error_length sf o ve h2
    refine ⟨?_, hpe, ?_, ?_⟩
    · unfold StructField.from_field
      rw [h1]
      dsimp only
      rw [h2]
    · intro hnil
      rw [hnil] at hve
      cases hve
    · have hpe1 : 1 ≤ pe.length := List.length_pos.mpr hpe
      simp only [SynError.combine, List.length_append]
      omega
  · intro f i o sf ve h1 h2
    unfold StructField.from_field
    rw [h1]
    dsimp only
    rw [h2]

/-- A field with a duplicate magic directive (fold-time violation) and a
deref-now/offset-after conflict (validation-time violation). -/
def fC3 : Field :=
  { ident := some "f"
    ty := "u32"
    span := ⟨0, 0, 10⟩
    attrs := [Directive.Magic ⟨0, 1, 2⟩ "1", Directive.Magic ⟨0, 3, 4⟩ "2",
              Directive.DerefNow ⟨0, 5, 6⟩, Directive.OffsetAfter ⟨0, 7, 8⟩ "off"] }

/-- The best-effort spec folding `fC3` produces (first magic kept). -/
def sfC3 : StructField :=
  { StructField.initial fC3 0 with
      magic := some ⟨"1", ⟨0, 1, 2⟩⟩
      deref_now := some ⟨(), ⟨0, 5, 6⟩⟩
      offset_after := some ⟨"off", ⟨0, 7, 8⟩⟩
      keyword_spans := [⟨0, 1, 2⟩, ⟨0, 5, 6⟩, ⟨0, 7, 8⟩] }

/-- C3 witness: one fold-time and one validation-time violation yield an
error set of size 2, attached to the still-usable spec. -/
theorem c3_witness :
    StructField.from_field fC3 0 ⟨false⟩ =
      ParseResult.Partial sfC3
        [(⟨0, 3, 4⟩, conflictingKeywordMsg), (⟨0, 5, 8⟩, derefNowOffsetAfterMsg)] ∧
    2 ≤ ([(⟨0, 3, 4⟩, conflictingKeywordMsg),
          (⟨0, 5, 8⟩, derefNowOffsetAfterMsg)] : SynError).length := by
  have h := c3_error_accumulation.1 fC3 0 ⟨false⟩ sfC3
    [(⟨0, 3, 4⟩, conflictingKeywordMsg)] [(⟨0, 5, 8⟩, derefNowOffsetAfterMsg)] rfl rfl
  exact ⟨h.1, h.2.2.2⟩

/-- A sum-type case with a named field list that is empty. -/
def vC5 : Variant := { ident := "V", attrs := [], fields := Fields.Named [] }

/-- A sum-type case with unit syntactic shape (no field list at all). -/
def vU5 : Variant := { ident := "U", attrs := [], fields := Fields.Unit }

/-- C5 counterexample: a case whose field list is present but empty
(named, zero fields) is resolved as a Compound case by full structure
resolution, not on the Unit path — classification goes by the syntactic
shape of the field list, not by its emptiness. -/
theorem c5_counterexample :
    Fields.fieldCount vC5.fields = 0 ∧
    EnumVariant.from_field vC5 0 ⟨false⟩ =
      ParseResult.Ok (EnumVariant.Variant "V" Struct.mkDefault) ∧
    EnumVariant.isUnit (EnumVariant.Variant "V" Struct.mkDefault) = false :=
  ⟨rfl, rfl, rfl⟩

/-- C5 (amended): classification goes by the syntactic shape of the field
list — a case with unit shape (no field list) is resolved on the Unit
path, and a case with a named or positional field list, even an empty
one, is resolved by full recursive structure resolution and wrapped as a
Compound case. -/
theorem c5_amended (v : Variant) (i : Nat) (o : Options) :
    (v.fields = Fields.Unit →
      EnumVariant.from_field v i o =
        (UnitEnumField.from_field v i o).map EnumVariant.Unit) ∧
    (∀ fs, v.fields = Fields.Named fs →
      EnumVariant.from_field v i o =
        (Struct.from_input v.attrs fs o).map (fun s => EnumVariant.Variant v.ident s)) ∧
    (∀ fs, v.fields = Fields.Unnamed fs →
      EnumVariant.from_field v i o =
        (Struct.from_input v.attrs fs o).map (fun s => EnumVariant.Variant v.ident s)) := by
  refine ⟨fun h => ?_, fun fs h => ?_, fun fs h => ?_⟩ <;>
    simp [EnumVariant.from_field, h]

/-- C5 amended witness: the unit shape takes the Unit path, the empty
named shape takes the Compound path. -/
theorem c5_amended_witness :
    EnumVariant.from_field vU5 0 ⟨false⟩ =
      ParseResult.Ok (EnumVariant.Unit ⟨"U", none, [], []⟩) ∧
    EnumVariant.from_field vC5 0 ⟨false⟩ =
      ParseResult.Ok (EnumVariant.Variant "V" Struct.mkDefault) :=
  ⟨(c5_amended vU5 0 ⟨false⟩).1 rfl, (c5_amended vC5 0 ⟨false⟩).2.1 [] rfl⟩

/-- C6: for a spec with the fallible-attempt (`try`) marker set,
validation reports an error whenever read-mode is calculated or
default-value, and never reports the try-incompatibility error when
read-mode is normal-parse. -/
theorem c6_try_incompatibility (sf : StructField) (o : Options) (dt : SpannedValue Unit)
    (h : sf.do_try = some dt) :
    (sf.generated_value = true → errorsOf (sf.validate o) ≠ []) ∧
    (sf.read_mode = FieldMode.Normal →
      msgMem tryIncompatibleMsg (errorsOf (sf.validate o)) = false) := by
  constructor
  · intro hg
    rcases hoa : sf.offset_after with _ | oa
    · rw [validate_no_mutex_try sf o dt (Or.inl hoa) h, hg]
      simp [errorsOf]
    · rcases hdn : sf.deref_now with _ | dn
      · rw [validate_no_mutex_try sf o dt (Or.inr hdn) h, hg]
        simp [errorsOf]
      · rw [validate_mutex sf o oa dn hoa hdn]
        simp [errorsOf]
  · intro hn
    have hg : sf.generated_value = false := by
      simp [StructField.generated_value, hn]
    have hargs : sf.validateArgs = Except.ok () := by
      simp [StructField.validateArgs, hn, FieldMode.isCalc]
    rcases hoa : sf.offset_after with _ | oa
    · rw [validate_no_mutex_try sf o dt (Or.inl hoa) h, hg]
      simp [hargs, errorsOf, msgMem]
    · rcases hdn : sf.deref_now with _ | dn
      · rw [validate_no_mutex_try sf o dt (Or.inr hdn) h, hg]
        simp [hargs, errorsOf, msgMem]
      · rw [validate_mutex sf o oa dn hoa hdn]
        simp [errorsOf, msgMem]
        decide

/-- A base field for the C6 witness specs. -/
def fC6 : Field := { ident := some "h", ty := "u8", span := ⟨0, 0, 5⟩, attrs := [] }

/-- try together with calc. -/
def sfC6calc : StructField :=
  { StructField.initial fC6 0 with
      read_mode := FieldMode.Calc "x"
      do_try := some ⟨(), ⟨0, 3, 4⟩⟩ }

/-- try together with default. -/
def sfC6default : StructField :=
  { StructField.initial fC6 0 with
      read_mode := FieldMode.Default
      do_try := some ⟨(), ⟨0, 3, 4⟩⟩ }

/-- try together with normal-parse. -/
def sfC6normal : StructField :=
  { StructField.initial fC6 0 with do_try := some ⟨(), ⟨0, 3, 4⟩⟩ }

/-- C6 witness: try+calc errors, try+default errors, try+normal never
reports the try-incompatibility error. -/
theorem c6_witness :
    errorsOf (sfC6calc.validate ⟨false⟩) ≠ [] ∧
    errorsOf (sfC6default.validate ⟨false⟩) ≠ [] ∧
    msgMem tryIncompatibleMsg (errorsOf (sfC6normal.validate ⟨false⟩)) = false :=
  ⟨(c6_try_incompatibility sfC6calc ⟨false⟩ _ rfl).1 rfl,
   (c6_try_incompatibility sfC6default ⟨false⟩ _ rfl).1 rfl,
   (c6_try_incompatibility sfC6normal ⟨false⟩ _ rfl).2 rfl⟩

/-- C7: a field definition with zero directives resolves, in any mode,
with no errors to the all-defaults spec: `has_no_attrs` true, written,
not calculated, inherited endianness, normal-parse read mode. -/
theorem c7_zero_directives (f : Field) (i : Nat) (o : Options) (h : f.attrs = []) :
    StructField.from_field f i o = ParseResult.Ok (StructField.initial f i) ∧
    (StructField.initial f i).has_no_attrs = true ∧
    (StructField.initial f i).is_written = true ∧
    (StructField.initial f i).generated_value = false ∧
    (StructField.initial f i).endian = CondEndian.Inherited ∧
    (StructField.initial f i).read_mode = FieldMode.Normal := by
  refine ⟨?_, rfl, rfl, rfl, rfl, rfl⟩
  unfold StructField.from_field
  rw [h]
  rfl

/-- A positional field with zero directives. -/
def fC7 : Field := { ident := none, ty := "u32", span := ⟨0, 0, 3⟩, attrs := [] }

/-- C7 witness: the zero-directive field resolves error-free to the
all-defaults spec in read mode and in write mode, with `has_no_attrs`
true and a synthesized identifier. -/
theorem c7_witness :
    StructField.from_field fC7 0 ⟨false⟩ = ParseResult.Ok (StructField.initial fC7 0) ∧
    StructField.from_field fC7 0 ⟨true⟩ = ParseResult.Ok (StructField.initial fC7 0) ∧
    (StructField.initial fC7 0).has_no_attrs = true ∧
    (StructField.initial fC7 0).ident = "self_0" :=
  ⟨(c7_zero_directives fC7 0 ⟨false⟩ rfl).1,
   (c7_zero_directives fC7 0 ⟨true⟩ rfl).1,
   (c7_zero_directives fC7 0 ⟨false⟩ rfl).2.1,
   rfl⟩

/-- C10: for a folded spec whose read-mode is default-value, validation
never reports the args-incompatibility error (the arguments-vs-calculated
check applies only to the calculated variant), and default combined with
a set arguments attribute — absent the other two violations — passes
validation outright. -/
theorem c10_default_args (sf : StructField) (o : Options)
    (h : sf.read_mode = FieldMode.Default) :
    (∀ e, sf.validate o = Except.error e → msgMem argsIncompatibleMsg e = false) ∧
    (sf.args.is_some = true → sf.do_try = none → sf.deref_now = none →
      sf.validate o = Except.ok ()) := by
  have hargs : sf.validateArgs = Except.ok () := by
    simp [StructField.validateArgs, h, FieldMode.isCalc]
  constructor
  · intro e he
    rcases hoa : sf.offset_after with _ | oa
    · rcases hdt : sf.do_try with _ | dt
      · rw [validate_no_mutex_no_try sf o (Or.inl hoa) hdt, hargs] at he
        cases he
      · rw [validate_no_mutex_try sf o dt (Or.inl hoa) hdt] at he
        have hg : sf.generated_value = true := by
          simp [StructField.generated_value, h]
        rw [hg] at he
        simp at he
        subst he
        simp [msgMem, tryIncompatibleMsg, argsIncompatibleMsg, derefNowOffsetAfterMsg]
    · rcases hdn : sf.deref_now with _ | dn
      · rcases hdt : sf.do_try with _ | dt
        · rw [validate_no_mutex_no_try sf o (Or.inr hdn) hdt, hargs] at he
          cases he
        · rw [validate_no_mutex_try sf o dt (Or.inr hdn) hdt] at he
          have hg : sf.generated_value = true := by
            simp [StructField.generated_value, h]
          rw [hg] at he
          simp at he
          subst he
          simp [msgMem, tryIncompatibleMsg, argsIncompatibleMsg, derefNowOffsetAfterMsg]
      · rw [validate_mutex sf o oa dn hoa hdn] at he
        simp at he
        subst he
        simp [msgMem, tryIncompatibleMsg, argsIncompatibleMsg, derefNowOffsetAfterMsg]
  · intro _ha hdt hdn
    rw [validate_no_mutex_no_try sf o (Or.inr hdn) hdt, hargs]

/-- A field combining `default` with an explicit argument list. -/
def fC10 : Field :=
  { ident := some "k"
    ty := "u8"
    span := ⟨0, 0, 9⟩
    attrs := [Directive.Default ⟨0, 1, 2⟩, Directive.Args ⟨0, 3, 4⟩ ["a"]] }

/-- The spec folding `fC10` produces. -/
def sfC10 : StructField :=
  { StructField.initial fC10 0 with
      read_mode := FieldMode.Default
      args := PassedArgs.List ["a"]
      keyword_spans := [⟨0, 1, 2⟩, ⟨0, 3, 4⟩] }

/-- C10 witness: default plus args resolves error-free; validation
passes. -/
theorem c10_witness :
    StructField.from_field fC10 0 ⟨false⟩ = ParseResult.Ok sfC10 ∧
    StructField.validate sfC10 ⟨false⟩ = Except.ok () :=
  ⟨rfl, (c10_default_args sfC10 ⟨false⟩ rfl).2 rfl rfl rfl⟩

end Binrw
